import Mathlib

/-!
Shallow embedding of the client-side session and conversation-state manager
of the policy-chat frontend: the authentication session store
(`AuthContext`: restore-on-mount, `fetchProfile`, `login`, `signup`,
`logout`), the route guard (`ProtectedWrapper`), and the chat page
(`send`, `loadChatHistory`, the history-window click handler and
`loadHistoryIntoChat`).  Network responses are passed in explicitly as
oracle values; `localStorage` is two optional string fields of the state;
timestamps (`new Date()`) are an explicit `now : Nat` parameter.
-/

namespace AgentClient

/-- The `User` record of `AuthContext` (id, email, username, created_at,
last_login nullable). -/
structure UserRec where
  id : Nat
  email : String
  username : String
  created_at : String
  last_login : Option String
  deriving DecidableEq, Repr

/-- Session-store state: React state `user`, `token`, `loading` plus the two
persisted `localStorage` keys `access_token` and `refresh_token`. -/
structure SessionState where
  user : Option UserRec
  token : Option String
  loading : Bool
  storedAccess : Option String
  storedRefresh : Option String
  deriving DecidableEq, Repr

/-- Outcome of the `GET /auth/profile` round trip as observed by
`fetchProfile`: `success` is an ok response whose body parsed to a user
record; `nonSuccess` is any response with `res.ok` false; `exn` is a thrown
exception (transport failure, or a body that fails to parse on the ok
path), which the `catch` block swallows. -/
inductive ProfileResult where
  | success (u : UserRec)
  | nonSuccess
  | exn
  deriving DecidableEq, Repr

/-- `fetchProfile` from `AuthContext`: on ok, `setUser`; on non-ok, remove
both persisted tokens and `setToken(null)` (note: `user` is not touched);
on exception, log only; `finally` always `setLoading(false)`. -/
def fetchProfile (s : SessionState) (r : ProfileResult) : SessionState :=
  match r with
  | .success u => { s with user := some u, loading := false }
  | .nonSuccess =>
      { s with storedAccess := none, storedRefresh := none, token := none,
               loading := false }
  | .exn => { s with loading := false }

/-- The mount-time `useEffect` of `AuthProvider`: read the persisted access
token; if present, `setToken` and run `fetchProfile` on it (the oracle `r`
is the profile response); otherwise just `setLoading(false)`. -/
def restore (s : SessionState) (r : ProfileResult) : SessionState :=
  match s.storedAccess with
  | some t => fetchProfile { s with token := some t } r
  | none => { s with loading := false }

/-- Outcome of the `POST /auth/login` (or `/auth/signup`) round trip:
`success` carries the two returned tokens and, since the success path then
awaits `fetchProfile` on the new access token, the profile outcome;
`failure` is a non-ok response whose JSON body has an optional `detail`
field. -/
inductive AuthResponse where
  | success (accessTok refreshTok : String) (profile : ProfileResult)
  | failure (detail : Option String)
  deriving DecidableEq, Repr

/-- Result of a session-store operation: the new state, the message of a
thrown `Error` if the operation rejected, and the navigation target of a
`router.push` if one was issued. -/
structure AuthOutcome where
  state : SessionState
  thrown : Option String
  redirect : Option String
  deriving DecidableEq, Repr

/-- JavaScript `d || fallback` on an optional string field: the fallback is
used when the field is absent (undefined) or the empty string (falsy). -/
def jsOr (d : Option String) (fallback : String) : String :=
  match d with
  | some t => if t = "" then fallback else t
  | none => fallback

/-- `login` from `AuthContext`: on a non-ok response, parse the body and
throw `Error(error.detail || "Login failed")`, leaving all state untouched;
on ok, persist both tokens, `setToken`, await `fetchProfile` on the new
access token, then `router.push("/chat")`. -/
def login (s : SessionState) (r : AuthResponse) : AuthOutcome :=
  match r with
  | .failure d => ⟨s, some (jsOr d "Login failed"), none⟩
  | .success a rt pr =>
      let s1 : SessionState :=
        { s with storedAccess := some a, storedRefresh := some rt,
                 token := some a }
      ⟨fetchProfile s1 pr, none, some "/chat"⟩

/-- `signup` from `AuthContext`: identical to `login` with the signup
endpoint and the fallback message "Signup failed". -/
def signup (s : SessionState) (r : AuthResponse) : AuthOutcome :=
  match r with
  | .failure d => ⟨s, some (jsOr d "Signup failed"), none⟩
  | .success a rt pr =>
      let s1 : SessionState :=
        { s with storedAccess := some a, storedRefresh := some rt,
                 token := some a }
      ⟨fetchProfile s1 pr, none, some "/chat"⟩

/-- `logout` from `AuthContext`: remove both persisted tokens,
`setToken(null)`, `setUser(null)`, `router.push("/auth")`; no network
call. -/
def logout (s : SessionState) : AuthOutcome :=
  ⟨{ s with storedAccess := none, storedRefresh := none, token := none,
            user := none },
   none, some "/auth"⟩

/-- The token-presence part of the claimed session invariant: `user` is
non-null only if the in-memory `token` is non-null. -/
def SessionInvariant (s : SessionState) : Prop :=
  s.user ≠ none → s.token ≠ none

instance (s : SessionState) : Decidable (SessionInvariant s) := by
  unfold SessionInvariant
  infer_instance

/-- States reachable from a process-start state (empty session, `loading`
true, arbitrary persisted storage) by the session-store operations with
arbitrary network outcomes. -/
inductive Reachable : SessionState → Prop where
  | init (sa sr : Option String) : Reachable ⟨none, none, true, sa, sr⟩
  | restoreStep (s : SessionState) (r : ProfileResult) :
      Reachable s → Reachable (restore s r)
  | fetchStep (s : SessionState) (r : ProfileResult) :
      Reachable s → Reachable (fetchProfile s r)
  | loginStep (s : SessionState) (r : AuthResponse) :
      Reachable s → Reachable (login s r).state
  | signupStep (s : SessionState) (r : AuthResponse) :
      Reachable s → Reachable (signup s r).state
  | logoutStep (s : SessionState) :
      Reachable s → Reachable (logout s).state

/-! Route guard: `ProtectedWrapper`. -/

/-- What the guard renders: the neutral waiting screen while `loading`, the
requested view (bare for the public path, wrapped in the sidebar shell for
an authenticated protected view), or nothing (`null`) while a redirect is
in flight. -/
inductive Rendered where
  | waiting
  | renderView (withSidebar : Bool)
  | blank
  deriving DecidableEq, Repr

/-- `publicPaths` of `ProtectedWrapper`. -/
def publicPaths : List String := ["/auth"]

/-- `publicPaths.includes(pathname)`. -/
def isPublicPath (pathname : String) : Bool :=
  publicPaths.contains pathname

/-- The redirect the guard effect issues: nothing while `loading`;
`/auth` when unauthenticated on a non-public path; `/` when authenticated
on a public path; otherwise none. -/
def guardRedirect (user : Option UserRec) (loading : Bool)
    (pathname : String) : Option String :=
  if loading then none
  else if user = none ∧ isPublicPath pathname = false then some "/auth"
  else if user ≠ none ∧ isPublicPath pathname = true then some "/"
  else none

/-- What `ProtectedWrapper` renders: the loading screen while `loading`;
the children bare on a public path; `null` when unauthenticated on a
protected path; the sidebar shell around the children otherwise. -/
def guardRender (user : Option UserRec) (loading : Bool)
    (pathname : String) : Rendered :=
  if loading then .waiting
  else if isPublicPath pathname then .renderView false
  else if user = none then .blank
  else .renderView true

/-! Conversation manager: the chat page. -/

/-- Message role, `"user" | "assistant"`. -/
inductive Role where
  | user
  | assistant
  deriving DecidableEq, Repr

/-- A transcript `Message`: optional persisted id, role, content (optional
because `data.answer` can be absent at runtime even though the TS type says
string), optional sources list, timestamp. -/
structure Message where
  id : Option Nat
  role : Role
  content : Option String
  sources : Option (List String)
  timestamp : Nat
  deriving DecidableEq, Repr

/-- Parsed body of a `POST /chat` response: `data.answer` and
`data.sources`, each possibly absent from the JSON object. -/
structure ChatBody where
  answer : Option String
  sources : Option (List String)
  deriving DecidableEq, Repr

/-- Outcome of the `POST /chat` round trip: a thrown transport error, or an
HTTP response with its status and, when the body is valid JSON, its parsed
body (`none` means `res.json()` throws). -/
inductive ChatResponse where
  | transportError
  | http (status : Nat) (body : Option ChatBody)
  deriving DecidableEq, Repr

/-- One element of the `GET /chat/history` response array. -/
structure RawMsg where
  id : Option Nat
  role : Role
  content : String
  sources : Option (List String)
  timestamp : Nat
  deriving DecidableEq, Repr

/-- Outcome of the `GET /chat/history` round trip. -/
inductive HistResponse where
  | transportError
  | http (status : Nat) (body : Option (List RawMsg))
  deriving DecidableEq, Repr

/-- JavaScript `res.ok`: status in the range 200-299. -/
def isOkStatus (status : Nat) : Bool :=
  200 ≤ status ∧ status < 300

/-- Chat-page state: the live transcript `messages`, the `input` field, the
`loading` flag of the in-flight send, and the loaded `chatHistory`. -/
structure ChatState where
  messages : List Message
  input : String
  loading : Bool
  chatHistory : List Message
  deriving DecidableEq, Repr

/-- The synthetic greeting message the transcript starts with. -/
def greetingMsg (now : Nat) : Message :=
  ⟨none, .assistant,
   some "I am The People\x27s Agent. I have access to the federal policy database.",
   some [], now⟩

/-- The `map` body of `loadChatHistory`: `msg.sources || []` defaults an
absent sources field to the empty list; `new Date(msg.timestamp)` keeps the
timestamp. -/
def convertMsg (m : RawMsg) : Message :=
  ⟨m.id, m.role, some m.content, some (m.sources.getD []), m.timestamp⟩

/-- `loadChatHistory`: no-op without a token; on an ok response whose body
parses, store the mapped array reversed (`history.reverse()`); on a non-ok
response, a parse failure, or a transport error, leave state unchanged
(the `catch` only logs; a non-ok response is not even caught — there is no
`else` branch). -/
def loadChatHistory (s : ChatState) (tok : Option String)
    (r : HistResponse) : ChatState :=
  match tok with
  | none => s
  | some _ =>
      match r with
      | .transportError => s
      | .http status body =>
          if isOkStatus status then
            match body with
            | some data =>
                { s with chatHistory := (data.map convertMsg).reverse }
            | none => s
          else s

/-- JavaScript `String.prototype.trim()`: strip leading and trailing
whitespace (modelled on the character list so it evaluates). -/
def jsTrim (s : String) : String :=
  ⟨(((s.data.dropWhile Char.isWhitespace).reverse.dropWhile
      Char.isWhitespace).reverse)⟩

/-- The optimistic user message `send` appends before the request. -/
def mkUserMsg (text : String) (now : Nat) : Message :=
  ⟨none, .user, some text, none, now⟩

/-- The assistant message `send` builds from a parsed response body. -/
def mkAssistantMsg (b : ChatBody) (now : Nat) : Message :=
  ⟨none, .assistant, b.answer, b.sources, now⟩

/-- The synthetic assistant error message of `send`'s catch block. -/
def errorMsg (now : Nat) : Message :=
  ⟨none, .assistant, some "Error connecting to secure backend.", none, now⟩

/-- The `try` block of `send` after the optimistic append: a transport
error or a body-parse failure throws (`.error ()`); a 401 status redirects
to `/auth` and returns; otherwise the parsed body is appended as an
assistant message and `loadChatHistory` is awaited. -/
def sendTry (s1 : ChatState) (tok : String) (resp : ChatResponse)
    (hresp : HistResponse) (now : Nat) :
    Except Unit (ChatState × Option String) :=
  match resp with
  | .transportError => .error ()
  | .http status body =>
      if status = 401 then .ok (s1, some "/auth")
      else
        match body with
        | none => .error ()
        | some b =>
            let s2 : ChatState :=
              { s1 with messages := s1.messages ++ [mkAssistantMsg b now] }
            .ok (loadChatHistory s2 (some tok) hresp, none)

/-- `send` from the chat page: no-op when the trimmed input is empty or
there is no token; otherwise append the optimistic user message, clear the
input, set `loading`, run the `try` block, on a thrown error append the
synthetic assistant error message, and in `finally` clear `loading`.
Returns the new state and the redirect target, if any. -/
def send (s : ChatState) (tok : Option String) (resp : ChatResponse)
    (hresp : HistResponse) (now : Nat) : ChatState × Option String :=
  if jsTrim s.input = "" then (s, none)
  else
    match tok with
    | none => (s, none)
    | some t =>
        let s1 : ChatState :=
          { s with messages := s.messages ++ [mkUserMsg s.input now],
                   input := "", loading := true }
        match sendTry s1 t resp hresp now with
        | .ok (s2, redir) => ({ s2 with loading := false }, redir)
        | .error () =>
            ({ s1 with messages := s1.messages ++ [errorMsg now],
                       loading := false }, none)

/-- `loadHistoryIntoChat`: replace the live transcript with the greeting
message followed by the given history slice. -/
def loadHistoryIntoChat (historyMessages : List Message) (now : Nat) :
    List Message :=
  greetingMsg now :: historyMessages

/-- Lower bound of the history window, `Math.max(0, anchor - radius)`
(the click handler instantiates `radius = 5`). -/
def windowStart (anchor radius : Nat) : Nat :=
  (max 0 ((anchor : Int) - (radius : Int))).toNat

/-- Upper bound of the history window,
`Math.min(length, anchor + radius + 1)` (the click handler writes
`idx + 6`, i.e. `radius = 5`). -/
def windowStop (len anchor radius : Nat) : Nat :=
  min len (anchor + radius + 1)

/-- The spec's `windowHistory(anchorIndex, radius)`: the contiguous slice
`[max(0, anchor-radius), min(length, anchor+radius+1))` of the loaded
history (JavaScript `slice(start, end)` is `take (end - start) ∘ drop
start`), passed to `loadHistoryIntoChat`.  The source's history click
handler is the instance `radius = 5`. -/
def windowHistory (hist : List Message) (anchor radius now : Nat) :
    List Message :=
  loadHistoryIntoChat
    ((hist.drop (windowStart anchor radius)).take
      (windowStop hist.length anchor radius - windowStart anchor radius))
    now

/-- The history-entry `onClick` handler, verbatim from the source:
`start = Math.max(0, idx - 5)`, `end = Math.min(chatHistory.length, idx +
6)`, `loadHistoryIntoChat(chatHistory.slice(start, end))`. -/
def historyWindowClick (chatHistory : List Message) (idx now : Nat) :
    List Message :=
  loadHistoryIntoChat
    ((chatHistory.drop ((max 0 ((idx : Int) - 5)).toNat)).take
      (min chatHistory.length (idx + 6) - (max 0 ((idx : Int) - 5)).toNat))
    now

/-! Concrete example values used by counterexamples and witnesses. -/

/-- A concrete user record. -/
def ceUser : UserRec := ⟨1, "alice@example.com", "alice", "2024-01-01", none⟩

/-- A process-start state with a stale persisted token pair. -/
def ceInit : SessionState :=
  ⟨none, none, true, some "staleAccess", some "staleRefresh"⟩

/-- The state reached by a successful restore followed by a profile
re-validation that the endpoint rejects. -/
def ceBad : SessionState :=
  fetchProfile (restore ceInit (.success ceUser)) .nonSuccess

/-- A validated session whose profile fetch has completed: no user loaded
yet, token in memory and persisted. -/
def sAuthed : SessionState := ⟨none, some "T", false, some "T", some "R"⟩

/-- A session state with no user and no tokens. -/
def c8State : SessionState := ⟨none, none, false, none, none⟩

/-- A chat state holding the greeting and a pending input. -/
def chatExState : ChatState := ⟨[greetingMsg 0], "hello", false, []⟩

/-- A chat state with a previously loaded three-message history. -/
def c10State : ChatState :=
  ⟨[greetingMsg 0], "", false,
   [mkUserMsg "old question" 1, mkAssistantMsg ⟨some "old answer", some []⟩ 2]⟩

/-- A three-message chronologically ordered history. -/
def exHist : List Message :=
  [mkUserMsg "q1" 10, mkAssistantMsg ⟨some "a1", some []⟩ 11, mkUserMsg "q2" 12]

/-! Theorems. -/

/-- C4: `fetchProfile` sets `loading` to false on every completion path —
successful response, non-success response, and thrown exception alike. -/
theorem c4_fetchProfile_clears_loading (s : SessionState) (r : ProfileResult) :
    (fetchProfile s r).loading = false := by
  cases r <;> rfl

/-- C7: for every persisted access token that the profile endpoint rejects
with a non-success response, restore from the process-start state ends with
`user` absent, both persisted tokens removed, the in-memory token cleared
(and `loading` released). -/
theorem c7_restore_rejected_token (t : String) (rt : Option String) :
    restore ⟨none, none, true, some t, rt⟩ .nonSuccess =
      ⟨none, none, false, none, none⟩ := by
  rfl

/-- C10: when the history request completes with any non-ok HTTP status
(e.g. a 401 or 500 with a body, not only a transport failure),
`loadChatHistory` returns the state unchanged — the previously stored
history persists, and the operation has no error or redirect channel at
all. -/
theorem c10_loadChatHistory_nonOk_silent (s : ChatState) (tok : Option String)
    (status : Nat) (body : Option (List RawMsg))
    (h : isOkStatus status = false) :
    loadChatHistory s tok (.http status body) = s := by
  cases tok with
  | none => rfl
  | some t => simp [loadChatHistory, h]

/-- Witness for C10: a 401 response carrying a body leaves a previously
loaded history untouched. -/
theorem c10_witness :
    isOkStatus 401 = false ∧
    loadChatHistory c10State (some "T")
      (.http 401 (some [⟨some 9, .assistant, "denied", none, 3⟩])) = c10State :=
  ⟨by decide,
   c10_loadChatHistory_nonOk_silent c10State (some "T") 401
     (some [⟨some 9, .assistant, "denied", none, 3⟩]) (by decide)⟩

/-- C9: `loadChatHistory` stores exactly the reverse of the service's
newest-first sequence (after the field-wise conversion), leaves the live
transcript untouched, and applying it twice with the same response yields
the same state as applying it once. -/
theorem c9_loadChatHistory_reverse_idempotent (s : ChatState) (t : String)
    (data : List RawMsg) :
    (loadChatHistory s (some t) (.http 200 (some data))).chatHistory
      = (data.map convertMsg).reverse ∧
    (loadChatHistory s (some t) (.http 200 (some data))).messages
      = s.messages ∧
    ∀ r : HistResponse,
      loadChatHistory (loadChatHistory s (some t) r) (some t) r
        = loadChatHistory s (some t) r := by
  refine ⟨rfl, rfl, ?_⟩
  intro r
  cases r with
  | transportError => rfl
  | http status body =>
      by_cases h : isOkStatus status = true
      · cases body with
        | none => simp [loadChatHistory, h]
        | some d => simp [loadChatHistory, h]
      · simp [loadChatHistory, h]

/-- C5: the route-guard decision is a pure function of
`(user, loading, currentView)`: while `loading` no redirect is issued and
the neutral waiting state is rendered; unauthenticated on a protected view
redirects to the sign-in view; authenticated on the public view redirects
to the default protected view; authenticated on a protected view or
unauthenticated on the public view renders the requested view (with or
without the sidebar shell) and issues no redirect. -/
theorem c5_route_guard (u : Option UserRec) (l : Bool) (p : String) :
    (l = true → guardRedirect u l p = none ∧ guardRender u l p = .waiting) ∧
    (l = false → u = none → isPublicPath p = false →
      guardRedirect u l p = some "/auth") ∧
    (l = false → u ≠ none → isPublicPath p = true →
      guardRedirect u l p = some "/") ∧
    (l = false → u ≠ none → isPublicPath p = false →
      guardRedirect u l p = none ∧ guardRender u l p = .renderView true) ∧
    (l = false → u = none → isPublicPath p = true →
      guardRedirect u l p = none ∧ guardRender u l p = .renderView false) := by
  refine ⟨?_, ?_, ?_, ?_, ?_⟩
  · rintro rfl
    simp [guardRedirect, guardRender]
  · rintro rfl rfl hp
    simp [guardRedirect, hp]
  · rintro rfl hu hp
    simp [guardRedirect, hp, hu]
  · rintro rfl hu hp
    rcases Option.ne_none_iff_exists.mp hu with ⟨x, hx⟩
    subst hx
    simp [guardRedirect, guardRender, hp]
  · rintro rfl rfl hp
    simp [guardRedirect, guardRender, hp]

/-- Witness for C5: concrete guard decisions — unauthenticated on `/chat`
redirects to `/auth`; authenticated on `/auth` redirects to `/`; while
loading on `/chat` no redirect; authenticated on `/chat` renders the view
in the sidebar shell. -/
theorem c5_witness :
    guardRedirect none false "/chat" = some "/auth" ∧
    guardRedirect (some ceUser) false "/auth" = some "/" ∧
    guardRedirect none true "/chat" = none ∧
    guardRender (some ceUser) false "/chat" = .renderView true :=
  ⟨(c5_route_guard none false "/chat").2.1 rfl rfl (by decide),
   (c5_route_guard (some ceUser) false "/auth").2.2.1 rfl (by decide)
     (by decide),
   ((c5_route_guard none true "/chat").1 rfl).1,
   ((c5_route_guard (some ceUser) false "/chat").2.2.2.1 rfl (by decide)
     (by decide)).2⟩

/-- C6: when `send` runs with non-empty trimmed input and a token and the
chat request comes back with status 401, the call redirects to `/auth` and
stops: the optimistic user message (containing the input text) is the only
message appended, no assistant message is added, the input is cleared and
`loading` is released. -/
theorem c6_send_401 (s : ChatState) (t : String) (body : Option ChatBody)
    (hresp : HistResponse) (now : Nat) (hin : ¬ jsTrim s.input = "") :
    send s (some t) (.http 401 body) hresp now
      = ({ s with messages := s.messages ++ [mkUserMsg s.input now],
                  input := "", loading := false }, some "/auth") := by
  simp only [send, sendTry, if_neg hin]
  rfl

/-- Witness for C6: a concrete 401 send leaves exactly the greeting plus
the optimistic user message and redirects to `/auth`. -/
theorem c6_witness :
    send chatExState (some "T") (.http 401 none) .transportError 0
      = ({ chatExState with
             messages := chatExState.messages ++ [mkUserMsg chatExState.input 0],
             input := "", loading := false }, some "/auth") :=
  c6_send_401 chatExState "T" none .transportError 0 (by decide)

/-- C2: for a history of length `L`, an anchor with `anchor < L` and any
radius, `windowHistory` replaces the transcript with the greeting message
followed by the contiguous slice `[max(0, anchor-radius),
min(L, anchor+radius+1))` of the history; the slice has length
`min(L, anchor+radius+1) - max(0, anchor-radius)`; every window element
comes from an in-bounds history position (no out-of-bounds access at
either edge); and the source's click handler is the `radius = 5`
instance. -/
theorem c2_windowHistory (hist : List Message) (anchor radius now : Nat)
    (h : anchor < hist.length) :
    windowHistory hist anchor radius now
      = greetingMsg now ::
        ((hist.drop (windowStart anchor radius)).take
          (windowStop hist.length anchor radius
            - windowStart anchor radius)) ∧
    ((hist.drop (windowStart anchor radius)).take
        (windowStop hist.length anchor radius
          - windowStart anchor radius)).length
      = (min (hist.length : Int) ((anchor : Int) + (radius : Int) + 1)
          - max 0 ((anchor : Int) - (radius : Int))).toNat ∧
    (∀ i : Nat,
      i < windowStop hist.length anchor radius - windowStart anchor radius →
      (windowHistory hist anchor radius now)[i + 1]?
          = hist[windowStart anchor radius + i]? ∧
        windowStart anchor radius + i < hist.length) ∧
    windowHistory hist anchor 5 now = historyWindowClick hist anchor now := by
  have hs : windowStart anchor radius = anchor - radius := by
    unfold windowStart
    omega
  refine ⟨rfl, ?_, ?_, ?_⟩
  · rw [List.length_take, List.length_drop]
    unfold windowStop
    rw [hs]
    omega
  · intro i hi
    constructor
    · show (greetingMsg now ::
          ((hist.drop (windowStart anchor radius)).take
            (windowStop hist.length anchor radius
              - windowStart anchor radius)))[i + 1]? = _
      rw [List.getElem?_cons_succ, List.getElem?_take, if_pos hi,
        List.getElem?_drop]
    · unfold windowStop at hi
      rw [hs] at hi ⊢
      omega
  · unfold windowHistory historyWindowClick windowStop windowStart
    have h5 : ((5 : Nat) : Int) = (5 : Int) := by norm_num
    rw [h5]

/-- Witness for C2: on a three-message history, `windowHistory(1, 1)`
yields the whole history behind the greeting (Scenario A), with the stated
length and in-bounds element characterization. -/
theorem c2_witness :
    ((exHist.drop (windowStart 1 1)).take
        (windowStop exHist.length 1 1 - windowStart 1 1)).length
      = (min (exHist.length : Int) ((1 : Nat) + (1 : Nat) + 1)
          - max 0 (((1 : Nat) : Int) - ((1 : Nat) : Int))).toNat ∧
    (windowHistory exHist 1 1 0)[0 + 1]? = exHist[windowStart 1 1 + 0]? ∧
    windowHistory exHist 1 5 0 = historyWindowClick exHist 1 0 := by
  refine ⟨?_, ?_, ?_⟩
  · exact (c2_windowHistory exHist 1 1 0 (by decide)).2.1
  · exact ((c2_windowHistory exHist 1 1 0 (by decide)).2.2.1 0 (by decide)).1
  · exact (c2_windowHistory exHist 1 1 0 (by decide)).2.2.2

/-- C1 counterexample: the invariant "`user` non-null only if the in-memory
token is non-null" is not preserved by the non-success branch of
`fetchProfile` — after a successful restore, a profile re-validation that
the endpoint rejects clears the token but leaves `user` loaded, so a
reachable state violates the invariant. -/
theorem c1_counterexample : Reachable ceBad ∧ ¬ SessionInvariant ceBad := by
  constructor
  · exact Reachable.fetchStep _ _
      (Reachable.restoreStep _ _
        (Reachable.init (some "staleAccess") (some "staleRefresh")))
  · decide

/-- C1 amended: each session-store operation preserves the token-presence
invariant under the calling conditions the code establishes: `fetchProfile`
is only invoked with the in-memory token just set, and its non-success
branch (which clears the token but not `user`) preserves the invariant
exactly when `user` was absent beforehand — as it always is during the
startup restore; `login`/`signup` failure paths and `logout` preserve it
unconditionally. -/
theorem c1_amended (s : SessionState) (hInv : SessionInvariant s) :
    (∀ r : ProfileResult, s.token ≠ none → (r = .nonSuccess → s.user = none) →
      SessionInvariant (fetchProfile s r)) ∧
    (∀ r : ProfileResult, (r = .nonSuccess → s.user = none) →
      SessionInvariant (restore s r)) ∧
    (∀ a rt : String, ∀ pr : ProfileResult,
      (pr = .nonSuccess → s.user = none) →
      SessionInvariant (login s (.success a rt pr)).state) ∧
    (∀ d : Option String, SessionInvariant (login s (.failure d)).state) ∧
    (∀ a rt : String, ∀ pr : ProfileResult,
      (pr = .nonSuccess → s.user = none) →
      SessionInvariant (signup s (.success a rt pr)).state) ∧
    (∀ d : Option String, SessionInvariant (signup s (.failure d)).state) ∧
    SessionInvariant (logout s).state := by
  refine ⟨?_, ?_, ?_, ?_, ?_, ?_, ?_⟩
  · intro r htok hr
    cases r with
    | success u => intro _; exact htok
    | nonSuccess =>
        intro hu
        exact absurd (hr rfl) (by simpa [fetchProfile] using hu)
    | exn => intro hu; exact htok
  · intro r hr
    unfold restore
    cases hsa : s.storedAccess with
    | none => exact hInv
    | some t =>
        cases r with
        | success u => intro _; simp [fetchProfile]
        | nonSuccess =>
            intro hu
            exact absurd (hr rfl) (by simpa [fetchProfile] using hu)
        | exn => intro _; simp [fetchProfile]
  · intro a rt pr hpr
    cases pr with
    | success u => intro _; simp [login, fetchProfile]
    | nonSuccess =>
        intro hu
        exact absurd (hpr rfl) (by simpa [login, fetchProfile] using hu)
    | exn => intro _; simp [login, fetchProfile]
  · intro d
    exact hInv
  · intro a rt pr hpr
    cases pr with
    | success u => intro _; simp [signup, fetchProfile]
    | nonSuccess =>
        intro hu
        exact absurd (hpr rfl) (by simpa [signup, fetchProfile] using hu)
    | exn => intro _; simp [signup, fetchProfile]
  · intro d
    exact hInv
  · intro hu
    simp [logout] at hu

/-- Witness for C1 amended: from a restored-but-userless state with a token
in memory, a rejected re-validation and a logout both preserve the
invariant. -/
theorem c1_witness :
    SessionInvariant (fetchProfile sAuthed .nonSuccess) ∧
    SessionInvariant (logout sAuthed).state :=
  ⟨(c1_amended sAuthed (by decide)).1 .nonSuccess (by decide) (fun _ => rfl),
   (c1_amended sAuthed (by decide)).2.2.2.2.2.2⟩

/-- C3 counterexample: a chat request that fails with a non-401 HTTP error
status whose body still parses (e.g. a 500 with a JSON error object) does
NOT get the synthetic assistant error message: the code only checks for
401 and otherwise treats the response as a success, appending an assistant
message built from the absent `answer` field. -/
theorem c3_counterexample :
    (send chatExState (some "T") (.http 500 (some ⟨none, none⟩))
        .transportError 0).1.messages
      = [greetingMsg 0, mkUserMsg "hello" 0,
         ⟨none, .assistant, none, none, 0⟩] ∧
    ∀ m ∈ (send chatExState (some "T") (.http 500 (some ⟨none, none⟩))
        .transportError 0).1.messages,
      m.content ≠ some "Error connecting to secure backend." := by
  decide

/-- C3 amended: when the chat request throws — a transport failure, or a
non-401 response whose body fails to parse — `send` appends the synthetic
assistant error message and does not rethrow or redirect; a non-401 error
status with a parseable body is instead handled like a success; on every
completion path of a non-empty send the loading indicator is cleared. -/
theorem c3_amended (s : ChatState) (t : String) (resp : ChatResponse)
    (hresp : HistResponse) (now : Nat) (hin : ¬ jsTrim s.input = "") :
    (send s (some t) resp hresp now).1.loading = false ∧
    (resp = .transportError →
      send s (some t) resp hresp now
        = ({ s with messages := s.messages
                      ++ [mkUserMsg s.input now, errorMsg now],
                    input := "", loading := false }, none)) ∧
    (∀ status : Nat, status ≠ 401 → resp = .http status none →
      send s (some t) resp hresp now
        = ({ s with messages := s.messages
                      ++ [mkUserMsg s.input now, errorMsg now],
                    input := "", loading := false }, none)) := by
  refine ⟨?_, ?_, ?_⟩
  · simp only [send, sendTry, if_neg hin]
    cases resp with
    | transportError => rfl
    | http status body =>
        by_cases h4 : status = 401
        · simp [h4]
        · cases body with
          | none => simp [h4]
          | some b => simp [h4]
  · rintro rfl
    simp only [send, sendTry, if_neg hin]
    simp
  · rintro status h4 rfl
    simp only [send, sendTry, if_neg hin]
    simp [h4]

/-- Witness for C3 amended: a concrete transport failure appends exactly
the optimistic user message and the synthetic error message, with loading
cleared. -/
theorem c3_witness :
    (send chatExState (some "T") ChatResponse.transportError
        .transportError 0).1.loading = false ∧
    send chatExState (some "T") ChatResponse.transportError .transportError 0
      = ({ chatExState with
             messages := chatExState.messages
               ++ [mkUserMsg chatExState.input 0, errorMsg 0],
             input := "", loading := false }, none) :=
  ⟨(c3_amended chatExState "T" .transportError .transportError 0
      (by decide)).1,
   (c3_amended chatExState "T" .transportError .transportError 0
      (by decide)).2.1 rfl⟩

/-- C8 counterexample: a non-success login response whose `detail` field is
present but the empty string rejects with the generic "Login failed", not
with the server-supplied detail — JavaScript `||` falls back on any falsy
value, not only on an absent field. -/
theorem c8_counterexample :
    (login c8State (.failure (some ""))).thrown = some "Login failed" ∧
    (login c8State (.failure (some ""))).thrown ≠ some "" := by
  decide

/-- C8 amended: on a non-success login response the session state (user,
in-memory token, persisted tokens) is unchanged, no navigation is issued,
and the rejection message equals the server-supplied `detail` when it is
present and non-empty, falling back to "Login failed" when `detail` is
absent or empty. -/
theorem c8_amended (s : SessionState) (d : Option String) :
    (login s (.failure d)).state = s ∧
    (login s (.failure d)).redirect = none ∧
    (∀ t : String, d = some t → t ≠ "" →
      (login s (.failure d)).thrown = some t) ∧
    (d = none ∨ d = some "" →
      (login s (.failure d)).thrown = some "Login failed") := by
  refine ⟨rfl, rfl, ?_, ?_⟩
  · rintro t rfl ht
    simp [login, jsOr, ht]
  · rintro (rfl | rfl) <;> rfl

/-- Witness for C8 amended: a concrete wrong-password login rejects with
the server detail and leaves the session state unchanged. -/
theorem c8_witness :
    (login c8State (.failure (some "Invalid credentials"))).state = c8State ∧
    (login c8State (.failure (some "Invalid credentials"))).thrown
      = some "Invalid credentials" :=
  ⟨(c8_amended c8State (some "Invalid credentials")).1,
   (c8_amended c8State (some "Invalid credentials")).2.2.1
     "Invalid credentials" rfl (by decide)⟩

end AgentClient
